import Mathlib

/-!
Shallow embedding of the genesis/identity provisioning core of the
repository (x/genutil/utils.go) and of the auth-module parameter set
(x/auth/types/params.go), together with theorems settling the spec claims.

The filesystem is modelled as an association list from paths to typed file
contents plus a record of the directories created (with the mode used at
creation).  Randomness is modelled by passing the fresh keys that the
secure generator would produce as explicit arguments.  Functions of the
tendermint / bip39 dependencies that the source calls are modelled from
their documented contracts (each such definition carries a comment saying
what it models).
-/

namespace CosmosGenutil

/-- Error taxonomy of the provisioning and genesis operations. -/
inductive Err
  | invalidMnemonic
  | emptyChainID
  | invalidValidatorPower
  | duplicateValidator
  | ioError
deriving DecidableEq, Repr

/-- Modelled from the spec: the crypto collaborator's key pair.  The secret
identifies the pair: `deriveFromSecret` is deterministic and distinct
secrets yield distinct pairs, so a pair is modelled by the secret bytes it
was derived from (or, for random keys, the entropy drawn). -/
structure PrivKey where
  secret : String
deriving DecidableEq, Repr

/-- Public half of a key pair. -/
structure PubKey where
  base : String
deriving DecidableEq, Repr

/-- Modelled from the spec: public-key derivation is deterministic and
(computationally) injective in the private key. -/
def PrivKey.pub (k : PrivKey) : PubKey := PubKey.mk k.secret

/-- Transport-layer node identifier, derived from the node public key
(tendermint p2p.PubKeyToID). -/
structure NodeID where
  ofPub : PubKey
deriving DecidableEq, Repr

/-- Modelled from the spec: algo.GenPrivKeyFromSecret, a pure deterministic
map from secret bytes to a key pair, (computationally) injective. -/
def GenPrivKeyFromSecret (secret : String) : PrivKey := PrivKey.mk secret

/-- tendermint NodeKey.ID(): stable identifier derived from the public key. -/
def nodeKeyID (k : PrivKey) : NodeID := NodeID.mk k.pub

/-- Mutable signing-state record of a file-backed validator signer
(tendermint privval.FilePVLastSignState). -/
structure SignState where
  height : Nat
  round : Nat
  step : Nat
deriving DecidableEq, Repr

/-- The signing state a freshly generated validator signer starts with:
last-signed height 0, no rounds. -/
def initialSignState : SignState := SignState.mk 0 0 0

/-- Voting member of the genesis validator set (tendermint
types.GenesisValidator). -/
structure GenesisValidator where
  pubKey : PubKey
  power : Int
  name : String
deriving DecidableEq, Repr

/-- Genesis document (tendermint types.GenesisDoc).  Time is modelled as a
Nat where 0 is the zero value of time.Time. -/
structure GenesisDoc where
  genesisTime : Nat
  chainID : String
  validators : List GenesisValidator
  appState : List Nat
deriving DecidableEq, Repr

/-- Typed content of an on-disk artifact.  Serialization of each artifact
kind is injective, so byte-for-byte equality of files is equality of these
values. -/
inductive FileContent
  | nodeKey (k : PrivKey)
  | pvKey (k : PrivKey)
  | pvState (s : SignState)
  | genesis (g : GenesisDoc)
deriving DecidableEq, Repr

/-- Filesystem state: files (path to content, first binding wins) and the
directories present, each with the mode it was created with. -/
structure FS where
  files : List (String × FileContent)
  dirs : List (String × Nat)
deriving DecidableEq, Repr

def FS.read (fs : FS) (p : String) : Option FileContent :=
  fs.files.lookup p

def FS.write (fs : FS) (p : String) (c : FileContent) : FS :=
  FS.mk ((p, c) :: fs.files) fs.dirs

def FS.hasDir (fs : FS) (d : String) : Bool :=
  (fs.dirs.lookup d).isSome

/-- tmos.EnsureDir: create the directory with the given mode if missing;
leave the filesystem untouched if it already exists. -/
def FS.ensureDir (fs : FS) (d : String) (mode : Nat) : FS :=
  if fs.hasDir d then fs else FS.mk fs.files ((d, mode) :: fs.dirs)

/-- filepath.Dir: the containing directory of a path (everything before
the last path separator). -/
def dirOf (p : String) : String :=
  String.mk (((p.data.reverse.dropWhile (fun c => c ≠ '/')).drop 1).reverse)

/-- The configuration paths the provisioning routine reads
(cfg.Config's NodeKeyFile, PrivValidatorKeyFile, PrivValidatorStateFile). -/
structure Config where
  nodeKeyFile : String
  privValidatorKeyFile : String
  privValidatorStateFile : String
deriving DecidableEq, Repr

/-- p2p.LoadOrGenNodeKey: load the node key from the file if present
(a file of the wrong shape is a corrupt key file and fails), otherwise
generate a fresh key (the entropy is the explicit `fresh` argument) and
persist it. -/
def loadOrGenNodeKey (fs : FS) (path : String) (fresh : PrivKey) :
    Except Err (PrivKey × FS) :=
  match fs.read path with
  | some (FileContent.nodeKey k) => Except.ok (k, fs)
  | some _ => Except.error Err.ioError
  | none => Except.ok (fresh, fs.write path (FileContent.nodeKey fresh))

/-- File-backed validator signer (tendermint privval.FilePV): key material
plus the mutable signing state. -/
structure FilePV where
  key : PrivKey
  lastSignState : SignState
deriving DecidableEq, Repr

/-- privval.LoadOrGenFilePV: if the key file exists, load key and signing
state from their files (corrupt or missing companion files fail);
otherwise generate a fresh key, pair it with the initial signing state and
persist both artifacts. -/
def loadOrGenFilePV (fs : FS) (keyFile stateFile : String) (fresh : PrivKey) :
    Except Err (FilePV × FS) :=
  match fs.read keyFile with
  | some (FileContent.pvKey k) =>
    match fs.read stateFile with
    | some (FileContent.pvState s) => Except.ok (FilePV.mk k s, fs)
    | _ => Except.error Err.ioError
  | some _ => Except.error Err.ioError
  | none =>
    Except.ok (FilePV.mk fresh initialSignState,
      (fs.write keyFile (FileContent.pvKey fresh)).write stateFile
        (FileContent.pvState initialSignState))

/-- privval.FilePV.Save: persist both the key file and the signing-state
file of the signer. -/
def FilePV.save (pv : FilePV) (fs : FS) (keyFile stateFile : String) : FS :=
  (fs.write keyFile (FileContent.pvKey pv.key)).write stateFile
    (FileContent.pvState pv.lastSignState)

/-- cryptocodec.FromTmPubKeyInterface: convert the consensus engine's
public-key value into the SDK representation.  All keys this core produces
are of a supported type, so the conversion succeeds. -/
def fromTmPubKeyInterface (k : PubKey) : Except Err PubKey := Except.ok k

/-- Result of provisioning: the transport node id and the consensus public
key. -/
structure InitOutput where
  nodeID : NodeID
  valPubKey : PubKey
deriving DecidableEq, Repr

/-- x/genutil/utils.go InitializeNodeValidatorFilesFromMnemonic.
`isMnemonicValid` stands for bip39.IsMnemonicValid (the checksum/wordlist
test of the crypto collaborator); `freshNode` and `freshVal` are the keys
the secure random generator would produce on the two generate paths.  The
returned filesystem is the state after the call (also on error paths,
which in the source return immediately without further writes). -/
def InitializeNodeValidatorFilesFromMnemonic
    (isMnemonicValid : String → Bool) (config : Config) (mnemonic : String)
    (freshNode freshVal : PrivKey) (fs : FS) :
    Except Err InitOutput × FS :=
  if mnemonic ≠ "" ∧ isMnemonicValid mnemonic = false then
    (Except.error Err.invalidMnemonic, fs)
  else
    let step1 : Except Err (PrivKey × FS) :=
      if mnemonic = "" then
        loadOrGenNodeKey fs config.nodeKeyFile freshNode
      else
        let privKey := GenPrivKeyFromSecret mnemonic
        Except.ok (privKey, fs.write config.nodeKeyFile (FileContent.nodeKey privKey))
    match step1 with
    | Except.error e => (Except.error e, fs)
    | Except.ok (nodeKey, fs1) =>
      let nodeID := nodeKeyID nodeKey
      let pvKeyFile := config.privValidatorKeyFile
      let fs2 := fs1.ensureDir (dirOf pvKeyFile) 0o777
      let pvStateFile := config.privValidatorStateFile
      let fs3 := fs2.ensureDir (dirOf pvStateFile) 0o777
      let step2 : Except Err (FilePV × FS) :=
        if mnemonic = "" then
          loadOrGenFilePV fs3 pvKeyFile pvStateFile freshVal
        else
          let privKey := GenPrivKeyFromSecret mnemonic
          let pv := FilePV.mk privKey initialSignState
          Except.ok (pv, pv.save fs3 pvKeyFile pvStateFile)
      match step2 with
      | Except.error e => (Except.error e, fs3)
      | Except.ok (filePV, fs4) =>
        let tmValPubKey := filePV.key.pub
        match fromTmPubKeyInterface tmValPubKey with
        | Except.error e => (Except.error e, fs4)
        | Except.ok valPubKey =>
          (Except.ok (InitOutput.mk nodeID valPubKey), fs4)

/-- x/genutil/utils.go InitializeNodeValidatorFiles: provisioning with no
mnemonic. -/
def InitializeNodeValidatorFiles
    (isMnemonicValid : String → Bool) (config : Config)
    (freshNode freshVal : PrivKey) (fs : FS) :
    Except Err InitOutput × FS :=
  InitializeNodeValidatorFilesFromMnemonic isMnemonicValid config ""
    freshNode freshVal fs

/-- Whether some public key appears twice in the validator list. -/
def hasDuplicatePubKey : List GenesisValidator → Bool
  | [] => false
  | v :: rest =>
    rest.any (fun w => decide (w.pubKey = v.pubKey)) || hasDuplicatePubKey rest

/-- Modelled from the spec: tendermint GenesisDoc.ValidateAndComplete (the
genesis-document collaborator, not part of the source tree).  Fails with
EmptyChainID on an empty chain id, with InvalidValidatorPower if any
validator has non-positive voting power, with DuplicateValidator if a
public key appears twice; fills a zero-value timestamp with the current
time `now`. -/
def validateAndComplete (now : Nat) (g : GenesisDoc) : Except Err GenesisDoc :=
  if g.chainID = "" then
    Except.error Err.emptyChainID
  else if g.validators.any (fun v => decide (v.power ≤ 0)) then
    Except.error Err.invalidValidatorPower
  else if hasDuplicatePubKey g.validators then
    Except.error Err.duplicateValidator
  else if g.genesisTime = 0 then
    Except.ok { g with genesisTime := now }
  else
    Except.ok g

/-- tendermint GenesisDoc.SaveAs: serialize the document and write it at
the path. -/
def GenesisDoc.saveAs (g : GenesisDoc) (fs : FS) (path : String) : FS :=
  fs.write path (FileContent.genesis g)

/-- x/genutil/utils.go ExportGenesisFile: validate and complete the
document, then write it; a validation error is returned before any write. -/
def ExportGenesisFile (now : Nat) (fs : FS) (genDoc : GenesisDoc)
    (genFile : String) : Option Err × FS :=
  match validateAndComplete now genDoc with
  | Except.error e => (some e, fs)
  | Except.ok g => (none, g.saveAs fs genFile)

/-- x/genutil/utils.go ExportGenesisFileWithTime: build the document from
the supplied fields, validate and complete it, then write it. -/
def ExportGenesisFileWithTime (now : Nat) (fs : FS) (genFile chainID : String)
    (validators : List GenesisValidator) (appState : List Nat)
    (genTime : Nat) : Option Err × FS :=
  let genDoc : GenesisDoc := GenesisDoc.mk genTime chainID validators appState
  match validateAndComplete now genDoc with
  | Except.error e => (some e, fs)
  | Except.ok g => (none, g.saveAs fs genFile)

/-- A directory mode is restrictive when it grants no permissions to group
or others (e.g. 0o700). -/
def isRestrictiveMode (m : Nat) : Bool := m % 64 = 0

end CosmosGenutil

namespace CosmosAuthParams

/-- x/auth/types/params.go: the auth-module parameter set.  Fields are
uint64 in the source; no arithmetic is performed on them, only zero tests,
so Nat models them faithfully. -/
structure Params where
  MaxMemoCharacters : Nat
  TxSigLimit : Nat
  TxSizeCostPerByte : Nat
  SigVerifyCostED25519 : Nat
  SigVerifyCostSecp256k1 : Nat
  SigVerifyCostSm2 : Nat
deriving DecidableEq, Repr

def DefaultMaxMemoCharacters : Nat := 20971520
def DefaultTxSigLimit : Nat := 7
def DefaultTxSizeCostPerByte : Nat := 10
def DefaultSigVerifyCostED25519 : Nat := 590
def DefaultSigVerifyCostSecp256k1 : Nat := 1000
def DefaultSigVerifyCostSm2 : Nat := 7850

/-- DefaultParams returns the default parameter set. -/
def DefaultParams : Params :=
  Params.mk DefaultMaxMemoCharacters DefaultTxSigLimit DefaultTxSizeCostPerByte
    DefaultSigVerifyCostED25519 DefaultSigVerifyCostSecp256k1 DefaultSigVerifyCostSm2

/-- Errors of the per-field validators (each carries the rejected value). -/
inductive ParamErr
  | invalidTxSigLimit (v : Nat)
  | invalidSigVerifyCostED25519 (v : Nat)
  | invalidSigVerifyCostSecp256k1 (v : Nat)
  | invalidSigVerifyCostSm2 (v : Nat)
  | invalidMaxMemoCharacters (v : Nat)
  | invalidTxSizeCostPerByte (v : Nat)
deriving DecidableEq, Repr

def validateTxSigLimit (v : Nat) : Option ParamErr :=
  if v = 0 then some (ParamErr.invalidTxSigLimit v) else none

def validateSigVerifyCostED25519 (v : Nat) : Option ParamErr :=
  if v = 0 then some (ParamErr.invalidSigVerifyCostED25519 v) else none

def validateSigVerifyCostSecp256k1 (v : Nat) : Option ParamErr :=
  if v = 0 then some (ParamErr.invalidSigVerifyCostSecp256k1 v) else none

def validateSigVerifyCostSm2 (v : Nat) : Option ParamErr :=
  if v = 0 then some (ParamErr.invalidSigVerifyCostSm2 v) else none

def validateMaxMemoCharacters (v : Nat) : Option ParamErr :=
  if v = 0 then some (ParamErr.invalidMaxMemoCharacters v) else none

def validateTxSizeCostPerByte (v : Nat) : Option ParamErr :=
  if v = 0 then some (ParamErr.invalidTxSizeCostPerByte v) else none

/-- Params.Validate: run the per-field validators in the source's order,
returning the first error, or none when all pass. -/
def Params.Validate (p : Params) : Option ParamErr :=
  match validateTxSigLimit p.TxSigLimit with
  | some e => some e
  | none =>
  match validateSigVerifyCostED25519 p.SigVerifyCostED25519 with
  | some e => some e
  | none =>
  match validateSigVerifyCostSecp256k1 p.SigVerifyCostSecp256k1 with
  | some e => some e
  | none =>
  match validateSigVerifyCostSm2 p.SigVerifyCostSm2 with
  | some e => some e
  | none =>
  match validateMaxMemoCharacters p.MaxMemoCharacters with
  | some e => some e
  | none =>
  match validateTxSizeCostPerByte p.TxSizeCostPerByte with
  | some e => some e
  | none => none

end CosmosAuthParams

namespace CosmosGenutil

/-- Concrete configuration used by the witnesses/counterexamples: the three
artifacts live in directory "d". -/
def cfgEx : Config := Config.mk "d/nk" "d/pvk" "d/pvs"

/-- A pre-existing identity key on disk. -/
def oldKey : PrivKey := PrivKey.mk "old"

/-- A filesystem of an already-initialized node: node key, validator key
and a signing state at height 5 all present. -/
def fsEx : FS :=
  FS.mk [("d/nk", FileContent.nodeKey oldKey),
         ("d/pvk", FileContent.pvKey oldKey),
         ("d/pvs", FileContent.pvState (SignState.mk 5 0 0))]
        [("d", 448)]

/-- An empty filesystem (fresh directory tree). -/
def fsEmpty : FS := FS.mk [] []

theorem FS.read_write (fs : FS) (p q : String) (c : FileContent) :
    (fs.write p c).read q = if q = p then some c else fs.read q := by
  by_cases h : q = p
  · simp [FS.read, FS.write, List.lookup, h]
  · have hb : (q == p) = false := beq_eq_false_iff_ne.mpr h
    simp [FS.read, FS.write, List.lookup, h, hb]

theorem FS.files_ensureDir (fs : FS) (d : String) (m : Nat) :
    (fs.ensureDir d m).files = fs.files := by
  unfold FS.ensureDir
  split <;> rfl

theorem FS.read_ensureDir (fs : FS) (d : String) (m : Nat) (q : String) :
    (fs.ensureDir d m).read q = fs.read q := by
  simp [FS.read, FS.files_ensureDir]

theorem FS.dirs_write (fs : FS) (p : String) (c : FileContent) :
    (fs.write p c).dirs = fs.dirs := rfl

theorem FS.hasDir_ensureDir_self (fs : FS) (d : String) (m : Nat) :
    (fs.ensureDir d m).hasDir d = true := by
  unfold FS.ensureDir
  split <;> simp_all [FS.hasDir, List.lookup]

theorem FS.hasDir_ensureDir (fs : FS) (d d' : String) (m : Nat) :
    fs.hasDir d = true → (fs.ensureDir d' m).hasDir d = true := by
  intro h
  unfold FS.ensureDir
  split
  · exact h
  · unfold FS.hasDir at h ⊢
    by_cases hd : d = d'
    · have hb : (d == d') = true := beq_iff_eq.mpr hd
      simp [List.lookup, hb]
    · have hb : (d == d') = false := beq_eq_false_iff_ne.mpr hd
      simpa [List.lookup, hb] using h

/-- Unfolding of the provisioning routine on the non-empty-valid-mnemonic
path: both keys are derived from the mnemonic and written, the signing
state is saved as the initial one. -/
theorem init_mnemonic (V : String → Bool) (cfg : Config) (m : String)
    (fn fv : PrivKey) (fs : FS) (hm : m ≠ "") (hv : V m = true) :
    InitializeNodeValidatorFilesFromMnemonic V cfg m fn fv fs =
      (Except.ok (InitOutput.mk (nodeKeyID (GenPrivKeyFromSecret m))
          (PrivKey.pub (GenPrivKeyFromSecret m))),
       FilePV.save (FilePV.mk (GenPrivKeyFromSecret m) initialSignState)
         (FS.ensureDir
           (FS.ensureDir
             (fs.write cfg.nodeKeyFile (FileContent.nodeKey (GenPrivKeyFromSecret m)))
             (dirOf cfg.privValidatorKeyFile) 0o777)
           (dirOf cfg.privValidatorStateFile) 0o777)
         cfg.privValidatorKeyFile cfg.privValidatorStateFile) := by
  unfold InitializeNodeValidatorFilesFromMnemonic
  simp [hm, hv, fromTmPubKeyInterface]

theorem loadOrGenNodeKey_error (fs : FS) (p : String) (f : PrivKey) (e : Err)
    (h : loadOrGenNodeKey fs p f = Except.error e) : e = Err.ioError := by
  unfold loadOrGenNodeKey at h
  rcases hr : fs.read p with _ | c <;> rw [hr] at h
  · simp at h
  · cases c <;> simp_all

theorem loadOrGenFilePV_error (fs : FS) (kf sf : String) (f : PrivKey) (e : Err)
    (h : loadOrGenFilePV fs kf sf f = Except.error e) : e = Err.ioError := by
  unfold loadOrGenFilePV at h
  rcases h1 : fs.read kf with _ | c <;> rw [h1] at h
  · simp at h
  · cases c <;> try simp_all
    rcases h2 : fs.read sf with _ | c2 <;> rw [h2] at h
    · simp_all
    · cases c2 <;> simp_all

/-- Unfolding of the provisioning routine on the empty-mnemonic path when
all three artifacts already exist: everything is loaded, no file is
written. -/
theorem init_empty_load (V : String → Bool) (cfg : Config) (fn fv k vk : PrivKey)
    (s : SignState) (fs : FS)
    (h1 : fs.read cfg.nodeKeyFile = some (FileContent.nodeKey k))
    (h2 : fs.read cfg.privValidatorKeyFile = some (FileContent.pvKey vk))
    (h3 : fs.read cfg.privValidatorStateFile = some (FileContent.pvState s)) :
    InitializeNodeValidatorFilesFromMnemonic V cfg "" fn fv fs =
      (Except.ok (InitOutput.mk (nodeKeyID k) (PrivKey.pub vk)),
       FS.ensureDir (FS.ensureDir fs (dirOf cfg.privValidatorKeyFile) 0o777)
         (dirOf cfg.privValidatorStateFile) 0o777) := by
  unfold InitializeNodeValidatorFilesFromMnemonic loadOrGenNodeKey loadOrGenFilePV
  simp [h1, h2, h3, FS.read_ensureDir, fromTmPubKeyInterface]

/-- Unfolding of the provisioning routine on the empty-mnemonic path when
neither key file exists: both keys are generated from the supplied entropy
and persisted, the signing state starts at the initial state. -/
theorem init_empty_gen (V : String → Bool) (cfg : Config) (fn fv : PrivKey)
    (fs : FS)
    (h1 : fs.read cfg.nodeKeyFile = none)
    (h2 : fs.read cfg.privValidatorKeyFile = none)
    (hne : cfg.privValidatorKeyFile ≠ cfg.nodeKeyFile) :
    InitializeNodeValidatorFilesFromMnemonic V cfg "" fn fv fs =
      (Except.ok (InitOutput.mk (nodeKeyID fn) (PrivKey.pub fv)),
       FS.write
         (FS.write
           (FS.ensureDir
             (FS.ensureDir (fs.write cfg.nodeKeyFile (FileContent.nodeKey fn))
               (dirOf cfg.privValidatorKeyFile) 0o777)
             (dirOf cfg.privValidatorStateFile) 0o777)
           cfg.privValidatorKeyFile (FileContent.pvKey fv))
         cfg.privValidatorStateFile (FileContent.pvState initialSignState)) := by
  unfold InitializeNodeValidatorFilesFromMnemonic loadOrGenNodeKey loadOrGenFilePV
  simp [h1, h2, hne, FS.read_ensureDir, FS.read_write, fromTmPubKeyInterface]

/-- On the empty-mnemonic path the routine never reports an invalid
mnemonic, whatever the mnemonic validator and the filesystem state. -/
theorem init_empty_fst_ne_invalid (V : String → Bool) (cfg : Config)
    (fn fv : PrivKey) (fs : FS) :
    (InitializeNodeValidatorFilesFromMnemonic V cfg "" fn fv fs).1 ≠
      Except.error Err.invalidMnemonic := by
  unfold InitializeNodeValidatorFilesFromMnemonic
  cases hr : loadOrGenNodeKey fs cfg.nodeKeyFile fn with
  | error e =>
    have he := loadOrGenNodeKey_error fs cfg.nodeKeyFile fn e hr
    simp [hr, he]
  | ok v =>
    cases v with
    | mk nk fs1 =>
      cases hr2 : loadOrGenFilePV
          (FS.ensureDir (FS.ensureDir fs1 (dirOf cfg.privValidatorKeyFile) 0o777)
            (dirOf cfg.privValidatorStateFile) 0o777)
          cfg.privValidatorKeyFile cfg.privValidatorStateFile fv with
      | error e2 =>
        have he2 := loadOrGenFilePV_error _ _ _ _ _ hr2
        simp [hr, hr2, he2]
      | ok v2 =>
        simp [hr, hr2, fromTmPubKeyInterface]

theorem FS.dirs_save (pv : FilePV) (fs : FS) (kf sf : String) :
    (pv.save fs kf sf).dirs = fs.dirs := rfl

theorem FS.hasDir_of_lookup (fs : FS) (d : String) (m : Nat)
    (h : fs.dirs.lookup d = some m) : fs.hasDir d = true := by
  unfold FS.hasDir
  rw [h]
  rfl

theorem FS.lookup_dirs_ensureDir_self (fs : FS) (d : String) (m : Nat)
    (h : fs.hasDir d = false) : ((fs.ensureDir d m).dirs).lookup d = some m := by
  unfold FS.ensureDir
  simp [h, List.lookup]

theorem FS.lookup_dirs_ensureDir_preserved (fs : FS) (d d' : String) (m m' : Nat)
    (h : fs.dirs.lookup d = some m) :
    ((fs.ensureDir d' m').dirs).lookup d = some m := by
  unfold FS.ensureDir
  split
  · exact h
  · rename_i hmiss
    by_cases hd : d = d'
    · subst hd
      exact absurd (FS.hasDir_of_lookup fs d m h) hmiss
    · have hb : (d == d') = false := beq_eq_false_iff_ne.mpr hd
      simp [List.lookup, hb, h]

theorem FS.hasDir_write (fs : FS) (p : String) (c : FileContent) (d : String) :
    (fs.write p c).hasDir d = fs.hasDir d := rfl

theorem FS.hasDir_ensureDir_other (fs : FS) (d d' : String) (m : Nat)
    (hd : d ≠ d') : (fs.ensureDir d' m).hasDir d = fs.hasDir d := by
  unfold FS.ensureDir
  split
  · rfl
  · have hb : (d == d') = false := beq_eq_false_iff_ne.mpr hd
    simp [FS.hasDir, List.lookup, hb]

/-- C2: a non-empty mnemonic that fails the checksum/wordlist validation
makes InitializeNodeValidatorFilesFromMnemonic return the invalid-mnemonic
error with the filesystem completely untouched: no key file, validator-key
file or signing-state file is created. -/
theorem init_invalid_mnemonic_aborts_without_writes (V : String → Bool)
    (cfg : Config) (m : String) (fn fv : PrivKey) (fs : FS)
    (hm : m ≠ "") (hv : V m = false) :
    InitializeNodeValidatorFilesFromMnemonic V cfg m fn fv fs =
      (Except.error Err.invalidMnemonic, fs) := by
  unfold InitializeNodeValidatorFilesFromMnemonic
  simp [hm, hv]

theorem init_invalid_mnemonic_aborts_without_writes_witness :
    ("only one word" : String) ≠ "" ∧ (fun (_ : String) => false) "only one word" = false ∧
      InitializeNodeValidatorFilesFromMnemonic (fun _ => false) cfgEx
        "only one word" oldKey oldKey fsEx = (Except.error Err.invalidMnemonic, fsEx) :=
  ⟨by decide, rfl,
   init_invalid_mnemonic_aborts_without_writes (fun _ => false) cfgEx
     "only one word" oldKey oldKey fsEx (by decide) rfl⟩

/-- C10: for a valid non-empty mnemonic, the transport (node) key and the
consensus (validator) key are both derived from the same secret by the
same derivation function, so the two persisted identity keys are the
identical key pair (and the returned identifiers are those of that single
pair). -/
theorem init_mnemonic_same_keypair_for_both_identities (V : String → Bool)
    (cfg : Config) (m : String) (fn fv : PrivKey) (fs : FS)
    (hm : m ≠ "") (hv : V m = true)
    (hA : cfg.nodeKeyFile ≠ cfg.privValidatorStateFile)
    (hB : cfg.nodeKeyFile ≠ cfg.privValidatorKeyFile)
    (hC : cfg.privValidatorKeyFile ≠ cfg.privValidatorStateFile) :
    (InitializeNodeValidatorFilesFromMnemonic V cfg m fn fv fs).2.read
        cfg.nodeKeyFile = some (FileContent.nodeKey (GenPrivKeyFromSecret m))
    ∧ (InitializeNodeValidatorFilesFromMnemonic V cfg m fn fv fs).2.read
        cfg.privValidatorKeyFile = some (FileContent.pvKey (GenPrivKeyFromSecret m))
    ∧ (InitializeNodeValidatorFilesFromMnemonic V cfg m fn fv fs).1 =
        Except.ok (InitOutput.mk (nodeKeyID (GenPrivKeyFromSecret m))
          (PrivKey.pub (GenPrivKeyFromSecret m))) := by
  rw [init_mnemonic V cfg m fn fv fs hm hv]
  refine ⟨?_, ?_, rfl⟩
  · simp [FilePV.save, FS.read_write, FS.read_ensureDir, hA, hB]
  · simp [FilePV.save, FS.read_write, FS.read_ensureDir, hC]

theorem init_mnemonic_same_keypair_for_both_identities_witness :
    ("new words" : String) ≠ "" ∧
      (InitializeNodeValidatorFilesFromMnemonic (fun _ => true) cfgEx
          "new words" oldKey oldKey fsEmpty).2.read "d/nk"
        = some (FileContent.nodeKey (GenPrivKeyFromSecret "new words")) ∧
      (InitializeNodeValidatorFilesFromMnemonic (fun _ => true) cfgEx
          "new words" oldKey oldKey fsEmpty).2.read "d/pvk"
        = some (FileContent.pvKey (GenPrivKeyFromSecret "new words")) :=
  ⟨by decide,
   (init_mnemonic_same_keypair_for_both_identities (fun _ => true) cfgEx
     "new words" oldKey oldKey fsEmpty (by decide) rfl (by decide) (by decide)
     (by decide)).1,
   (init_mnemonic_same_keypair_for_both_identities (fun _ => true) cfgEx
     "new words" oldKey oldKey fsEmpty (by decide) rfl (by decide) (by decide)
     (by decide)).2.1⟩

/-- C1 counterexample: on a filesystem where node-key and validator-key
files already exist, calling provisioning with a (different) valid
mnemonic rewrites the node-key file with the mnemonic-derived key and
returns that key's identifier, not the one loaded from disk — so the
claim's "regardless of whether a mnemonic is supplied" clause is false. -/
theorem init_existing_files_overwritten_by_mnemonic_cex :
    (InitializeNodeValidatorFilesFromMnemonic (fun _ => true) cfgEx
        "new words" (PrivKey.mk "f1") (PrivKey.mk "f2") fsEx).2.read "d/nk"
      = some (FileContent.nodeKey (PrivKey.mk "new words"))
    ∧ fsEx.read "d/nk" = some (FileContent.nodeKey (PrivKey.mk "old"))
    ∧ FileContent.nodeKey (PrivKey.mk "new words") ≠
        FileContent.nodeKey (PrivKey.mk "old")
    ∧ (InitializeNodeValidatorFilesFromMnemonic (fun _ => true) cfgEx
        "new words" (PrivKey.mk "f1") (PrivKey.mk "f2") fsEx).1
      = Except.ok (InitOutput.mk (nodeKeyID (PrivKey.mk "new words"))
          (PrivKey.pub (PrivKey.mk "new words")))
    ∧ nodeKeyID (PrivKey.mk "new words") ≠ nodeKeyID (PrivKey.mk "old") := by
  refine ⟨by decide, by decide, by decide, rfl, by decide⟩

/-- C1 (amended): when the key files already exist and **no mnemonic is
supplied** (empty mnemonic), provisioning returns the key/identifier
loaded from those files and leaves the existing files byte-for-byte
unchanged; with a non-empty valid mnemonic the files are instead
overwritten with the mnemonic-derived key. -/
theorem init_existing_files_loaded_when_no_mnemonic (V : String → Bool)
    (cfg : Config) (fn fv k vk : PrivKey) (s : SignState) (fs : FS)
    (h1 : fs.read cfg.nodeKeyFile = some (FileContent.nodeKey k))
    (h2 : fs.read cfg.privValidatorKeyFile = some (FileContent.pvKey vk))
    (h3 : fs.read cfg.privValidatorStateFile = some (FileContent.pvState s)) :
    (InitializeNodeValidatorFilesFromMnemonic V cfg "" fn fv fs).1 =
        Except.ok (InitOutput.mk (nodeKeyID k) (PrivKey.pub vk))
    ∧ (InitializeNodeValidatorFilesFromMnemonic V cfg "" fn fv fs).2.files
        = fs.files := by
  rw [init_empty_load V cfg fn fv k vk s fs h1 h2 h3]
  exact ⟨rfl, by simp [FS.files_ensureDir]⟩

theorem init_existing_files_loaded_when_no_mnemonic_witness :
    fsEx.read "d/nk" = some (FileContent.nodeKey oldKey) ∧
      (InitializeNodeValidatorFilesFromMnemonic (fun _ => true) cfgEx ""
          (PrivKey.mk "f1") (PrivKey.mk "f2") fsEx).1
        = Except.ok (InitOutput.mk (nodeKeyID oldKey) (PrivKey.pub oldKey)) ∧
      (InitializeNodeValidatorFilesFromMnemonic (fun _ => true) cfgEx ""
          (PrivKey.mk "f1") (PrivKey.mk "f2") fsEx).2.files = fsEx.files :=
  ⟨rfl,
   (init_existing_files_loaded_when_no_mnemonic (fun _ => true) cfgEx
     (PrivKey.mk "f1") (PrivKey.mk "f2") oldKey oldKey (SignState.mk 5 0 0)
     fsEx rfl rfl rfl).1,
   (init_existing_files_loaded_when_no_mnemonic (fun _ => true) cfgEx
     (PrivKey.mk "f1") (PrivKey.mk "f2") oldKey oldKey (SignState.mk 5 0 0)
     fsEx rfl rfl rfl).2⟩

/-- C5 counterexample: on a filesystem where the validator key file
already exists and the signing state is at height 5, calling provisioning
with a valid mnemonic rewrites the signing-state file back to the initial
state (height 0) — the existing signing state is not left untouched, so
the claim's "regardless of whether a mnemonic is supplied" clause is
false. -/
theorem init_sign_state_reset_by_mnemonic_cex :
    fsEx.read "d/pvk" = some (FileContent.pvKey oldKey)
    ∧ fsEx.read "d/pvs" = some (FileContent.pvState (SignState.mk 5 0 0))
    ∧ (InitializeNodeValidatorFilesFromMnemonic (fun _ => true) cfgEx
        "new words" (PrivKey.mk "f1") (PrivKey.mk "f2") fsEx).2.read "d/pvs"
      = some (FileContent.pvState initialSignState)
    ∧ FileContent.pvState initialSignState ≠
        FileContent.pvState (SignState.mk 5 0 0) := by
  refine ⟨by decide, by decide, by decide, by decide⟩

/-- C5 (amended): the signing-state artifact is initialized (last-signed
height 0, no rounds) only when the consensus key is generated on the
empty-mnemonic path; on a call with an empty mnemonic where the validator
key file already exists, the existing signing-state file is left
untouched; on a call with a non-empty valid mnemonic, the signing-state
file is rewritten to the initial state. -/
theorem init_sign_state_frame_conditions (V : String → Bool) (cfg : Config)
    (m : String) (fn fv k vk : PrivKey) (s : SignState) (fs : FS)
    (h1 : fs.read cfg.nodeKeyFile = some (FileContent.nodeKey k))
    (h2 : fs.read cfg.privValidatorKeyFile = some (FileContent.pvKey vk))
    (h3 : fs.read cfg.privValidatorStateFile = some (FileContent.pvState s))
    (hm : m ≠ "") (hv : V m = true) :
    (InitializeNodeValidatorFilesFromMnemonic V cfg "" fn fv fs).2.files
        = fs.files
    ∧ (InitializeNodeValidatorFilesFromMnemonic V cfg "" fn fv fs).2.read
        cfg.privValidatorStateFile = some (FileContent.pvState s)
    ∧ (InitializeNodeValidatorFilesFromMnemonic V cfg m fn fv fs).2.read
        cfg.privValidatorStateFile
      = some (FileContent.pvState initialSignState) := by
  refine ⟨?_, ?_, ?_⟩
  · rw [init_empty_load V cfg fn fv k vk s fs h1 h2 h3]
    simp [FS.files_ensureDir]
  · rw [init_empty_load V cfg fn fv k vk s fs h1 h2 h3]
    simp [FS.read_ensureDir, h3]
  · rw [init_mnemonic V cfg m fn fv fs hm hv]
    simp [FilePV.save, FS.read_write]

theorem init_sign_state_frame_conditions_witness :
    fsEx.read "d/pvs" = some (FileContent.pvState (SignState.mk 5 0 0)) ∧
      (InitializeNodeValidatorFilesFromMnemonic (fun _ => true) cfgEx ""
          (PrivKey.mk "f1") (PrivKey.mk "f2") fsEx).2.read "d/pvs"
        = some (FileContent.pvState (SignState.mk 5 0 0)) ∧
      (InitializeNodeValidatorFilesFromMnemonic (fun _ => true) cfgEx
          "new words" (PrivKey.mk "f1") (PrivKey.mk "f2") fsEx).2.read "d/pvs"
        = some (FileContent.pvState initialSignState) :=
  ⟨rfl,
   (init_sign_state_frame_conditions (fun _ => true) cfgEx "new words"
     (PrivKey.mk "f1") (PrivKey.mk "f2") oldKey oldKey (SignState.mk 5 0 0)
     fsEx rfl rfl rfl (by decide) rfl).2.1,
   (init_sign_state_frame_conditions (fun _ => true) cfgEx "new words"
     (PrivKey.mk "f1") (PrivKey.mk "f2") oldKey oldKey (SignState.mk 5 0 0)
     fsEx rfl rfl rfl (by decide) rfl).2.2⟩

/-- C6: the empty mnemonic bypasses mnemonic validation entirely (the
result is never the invalid-mnemonic error, even under a validator that
rejects every string) and takes the load-or-generate path for both keys:
an existing file is loaded and returned, a missing one is filled with a
freshly generated key that is persisted. -/
theorem init_empty_mnemonic_load_or_generate (V : String → Bool)
    (cfg : Config) (fn fv k vk : PrivKey) (s : SignState) (fs : FS) :
    ((InitializeNodeValidatorFilesFromMnemonic V cfg "" fn fv fs).1 ≠
        Except.error Err.invalidMnemonic)
    ∧ (fs.read cfg.nodeKeyFile = some (FileContent.nodeKey k) →
       fs.read cfg.privValidatorKeyFile = some (FileContent.pvKey vk) →
       fs.read cfg.privValidatorStateFile = some (FileContent.pvState s) →
       (InitializeNodeValidatorFilesFromMnemonic V cfg "" fn fv fs).1 =
           Except.ok (InitOutput.mk (nodeKeyID k) (PrivKey.pub vk))
         ∧ (InitializeNodeValidatorFilesFromMnemonic V cfg "" fn fv fs).2.files
           = fs.files)
    ∧ (fs.read cfg.nodeKeyFile = none →
       fs.read cfg.privValidatorKeyFile = none →
       cfg.privValidatorKeyFile ≠ cfg.nodeKeyFile →
       cfg.privValidatorStateFile ≠ cfg.nodeKeyFile →
       cfg.privValidatorStateFile ≠ cfg.privValidatorKeyFile →
       (InitializeNodeValidatorFilesFromMnemonic V cfg "" fn fv fs).1 =
           Except.ok (InitOutput.mk (nodeKeyID fn) (PrivKey.pub fv))
         ∧ (InitializeNodeValidatorFilesFromMnemonic V cfg "" fn fv fs).2.read
             cfg.nodeKeyFile = some (FileContent.nodeKey fn)
         ∧ (InitializeNodeValidatorFilesFromMnemonic V cfg "" fn fv fs).2.read
             cfg.privValidatorKeyFile = some (FileContent.pvKey fv)
         ∧ (InitializeNodeValidatorFilesFromMnemonic V cfg "" fn fv fs).2.read
             cfg.privValidatorStateFile
           = some (FileContent.pvState initialSignState)) := by
  refine ⟨init_empty_fst_ne_invalid V cfg fn fv fs, ?_, ?_⟩
  · intro h1 h2 h3
    rw [init_empty_load V cfg fn fv k vk s fs h1 h2 h3]
    exact ⟨rfl, by simp [FS.files_ensureDir]⟩
  · intro h1 h2 hne1 hne2 hne3
    rw [init_empty_gen V cfg fn fv fs h1 h2 hne1]
    refine ⟨rfl, ?_, ?_, ?_⟩
    · simp [FS.read_write, FS.read_ensureDir, Ne.symm hne1, Ne.symm hne2]
    · simp [FS.read_write, Ne.symm hne3]
    · simp [FS.read_write]

theorem init_empty_mnemonic_load_or_generate_witness :
    fsEmpty.read "d/nk" = none ∧
      (InitializeNodeValidatorFilesFromMnemonic (fun _ => false) cfgEx ""
          (PrivKey.mk "f1") (PrivKey.mk "f2") fsEmpty).1
        = Except.ok (InitOutput.mk (nodeKeyID (PrivKey.mk "f1"))
            (PrivKey.pub (PrivKey.mk "f2"))) ∧
      (InitializeNodeValidatorFilesFromMnemonic (fun _ => false) cfgEx ""
          (PrivKey.mk "f1") (PrivKey.mk "f2") fsEmpty).2.read "d/pvs"
        = some (FileContent.pvState initialSignState) :=
  ⟨rfl,
   ((init_empty_mnemonic_load_or_generate (fun _ => false) cfgEx
       (PrivKey.mk "f1") (PrivKey.mk "f2") oldKey oldKey initialSignState
       fsEmpty).2.2 rfl rfl (by decide) (by decide) (by decide)).1,
   ((init_empty_mnemonic_load_or_generate (fun _ => false) cfgEx
       (PrivKey.mk "f1") (PrivKey.mk "f2") oldKey oldKey initialSignState
       fsEmpty).2.2 rfl rfl (by decide) (by decide) (by decide)).2.2.2⟩

theorem FS.hasDir_save (pv : FilePV) (fs : FS) (kf sf d : String) :
    (pv.save fs kf sf).hasDir d = fs.hasDir d := rfl

/-- C7 counterexample: on a filesystem with no directories, provisioning
creates the containing directory of the validator-key file with mode
0o777 — world-readable and world-writable, which is not a restrictive
mode — so the "restrictive permissions" part of the claim is false. -/
theorem init_creates_dirs_permissive_mode_cex :
    dirOf "d/pvk" = "d"
    ∧ fsEmpty.hasDir "d" = false
    ∧ (InitializeNodeValidatorFilesFromMnemonic (fun _ => true) cfgEx
        "new words" (PrivKey.mk "f1") (PrivKey.mk "f2") fsEmpty).2.dirs.lookup "d"
      = some 0o777
    ∧ isRestrictiveMode 0o777 = false := by
  refine ⟨by decide, by decide, by decide, by decide⟩

/-- C7 (amended): before writing the validator key and signing-state
files, InitializeNodeValidatorFilesFromMnemonic ensures each containing
directory exists, creating any missing directory — but with the permissive
mode 0o777, not with restrictive permissions. -/
theorem init_ensures_pv_dirs_with_mode_0777 (V : String → Bool)
    (cfg : Config) (m : String) (fn fv : PrivKey) (fs : FS)
    (hm : m ≠ "") (hv : V m = true) :
    ((InitializeNodeValidatorFilesFromMnemonic V cfg m fn fv fs).2.hasDir
        (dirOf cfg.privValidatorKeyFile) = true)
    ∧ ((InitializeNodeValidatorFilesFromMnemonic V cfg m fn fv fs).2.hasDir
        (dirOf cfg.privValidatorStateFile) = true)
    ∧ (fs.hasDir (dirOf cfg.privValidatorKeyFile) = false →
        (InitializeNodeValidatorFilesFromMnemonic V cfg m fn fv fs).2.dirs.lookup
          (dirOf cfg.privValidatorKeyFile) = some 0o777)
    ∧ (fs.hasDir (dirOf cfg.privValidatorStateFile) = false →
        (InitializeNodeValidatorFilesFromMnemonic V cfg m fn fv fs).2.dirs.lookup
          (dirOf cfg.privValidatorStateFile) = some 0o777) := by
  rw [init_mnemonic V cfg m fn fv fs hm hv]
  refine ⟨?_, ?_, ?_, ?_⟩
  · rw [FS.hasDir_save]
    exact FS.hasDir_ensureDir _ _ _ _ (FS.hasDir_ensureDir_self _ _ _)
  · rw [FS.hasDir_save]
    exact FS.hasDir_ensureDir_self _ _ _
  · intro h
    rw [FS.dirs_save]
    apply FS.lookup_dirs_ensureDir_preserved
    apply FS.lookup_dirs_ensureDir_self
    rw [FS.hasDir_write]
    exact h
  · intro h
    rw [FS.dirs_save]
    by_cases hd : dirOf cfg.privValidatorStateFile = dirOf cfg.privValidatorKeyFile
    · rw [hd]
      apply FS.lookup_dirs_ensureDir_preserved
      apply FS.lookup_dirs_ensureDir_self
      rw [FS.hasDir_write]
      rw [hd] at h
      exact h
    · apply FS.lookup_dirs_ensureDir_self
      rw [FS.hasDir_ensureDir_other _ _ _ _ hd, FS.hasDir_write]
      exact h

theorem init_ensures_pv_dirs_with_mode_0777_witness :
    fsEmpty.hasDir (dirOf "d/pvk") = false ∧
      (InitializeNodeValidatorFilesFromMnemonic (fun _ => true) cfgEx
          "new words" (PrivKey.mk "f1") (PrivKey.mk "f2") fsEmpty).2.hasDir
        (dirOf "d/pvk") = true ∧
      (InitializeNodeValidatorFilesFromMnemonic (fun _ => true) cfgEx
          "new words" (PrivKey.mk "f1") (PrivKey.mk "f2") fsEmpty).2.dirs.lookup
        (dirOf "d/pvk") = some 0o777 :=
  ⟨by decide,
   (init_ensures_pv_dirs_with_mode_0777 (fun _ => true) cfgEx "new words"
     (PrivKey.mk "f1") (PrivKey.mk "f2") fsEmpty (by decide) rfl).1,
   (init_ensures_pv_dirs_with_mode_0777 (fun _ => true) cfgEx "new words"
     (PrivKey.mk "f1") (PrivKey.mk "f2") fsEmpty (by decide) rfl).2.2.1
     (by decide)⟩

/-- C9: key derivation from a secret is pure and deterministic — two runs
of provisioning with the same fixed valid mnemonic on fresh directories
produce the same result and byte-identical key files, whatever entropy the
random generator would have supplied — and two runs with different valid
mnemonics produce different public identifiers (node id and validator
public key). -/
theorem init_derivation_deterministic_and_injective (V : String → Bool)
    (cfg : Config) (m m1 m2 : String) (fn1 fv1 fn2 fv2 : PrivKey)
    (fs1 fs2 : FS) (o1 o2 : InitOutput)
    (hm : m ≠ "") (hv : V m = true)
    (hm1 : m1 ≠ "") (hv1 : V m1 = true) (hm2 : m2 ≠ "") (hv2 : V m2 = true) :
    (fs1.files = [] → fs2.files = [] →
      (InitializeNodeValidatorFilesFromMnemonic V cfg m fn1 fv1 fs1).1
        = (InitializeNodeValidatorFilesFromMnemonic V cfg m fn2 fv2 fs2).1
      ∧ (InitializeNodeValidatorFilesFromMnemonic V cfg m fn1 fv1 fs1).2.files
        = (InitializeNodeValidatorFilesFromMnemonic V cfg m fn2 fv2 fs2).2.files)
    ∧ (m1 ≠ m2 →
       (InitializeNodeValidatorFilesFromMnemonic V cfg m1 fn1 fv1 fs1).1
         = Except.ok o1 →
       (InitializeNodeValidatorFilesFromMnemonic V cfg m2 fn2 fv2 fs2).1
         = Except.ok o2 →
       o1.nodeID ≠ o2.nodeID ∧ o1.valPubKey ≠ o2.valPubKey) := by
  constructor
  · intro h1 h2
    rw [init_mnemonic V cfg m fn1 fv1 fs1 hm hv,
        init_mnemonic V cfg m fn2 fv2 fs2 hm hv]
    exact ⟨rfl, by simp [FilePV.save, FS.write, FS.files_ensureDir, h1, h2]⟩
  · intro hne he1 he2
    rw [init_mnemonic V cfg m1 fn1 fv1 fs1 hm1 hv1] at he1
    rw [init_mnemonic V cfg m2 fn2 fv2 fs2 hm2 hv2] at he2
    simp only [Except.ok.injEq] at he1 he2
    subst he1
    subst he2
    constructor
    · simp [nodeKeyID, GenPrivKeyFromSecret, PrivKey.pub, hne]
    · simp [GenPrivKeyFromSecret, PrivKey.pub, hne]

theorem init_derivation_deterministic_and_injective_witness :
    ((InitializeNodeValidatorFilesFromMnemonic (fun _ => true) cfgEx
        "same words" (PrivKey.mk "a") (PrivKey.mk "b") fsEmpty).1
      = (InitializeNodeValidatorFilesFromMnemonic (fun _ => true) cfgEx
        "same words" (PrivKey.mk "c") (PrivKey.mk "d") fsEmpty).1)
    ∧ (InitOutput.mk (nodeKeyID (GenPrivKeyFromSecret "words one"))
        (PrivKey.pub (GenPrivKeyFromSecret "words one"))).nodeID
      ≠ (InitOutput.mk (nodeKeyID (GenPrivKeyFromSecret "words two"))
        (PrivKey.pub (GenPrivKeyFromSecret "words two"))).nodeID :=
  ⟨((init_derivation_deterministic_and_injective (fun _ => true) cfgEx
      "same words" "words one" "words two" (PrivKey.mk "a") (PrivKey.mk "b")
      (PrivKey.mk "c") (PrivKey.mk "d") fsEmpty fsEmpty
      (InitOutput.mk (nodeKeyID (GenPrivKeyFromSecret "words one"))
        (PrivKey.pub (GenPrivKeyFromSecret "words one")))
      (InitOutput.mk (nodeKeyID (GenPrivKeyFromSecret "words two"))
        (PrivKey.pub (GenPrivKeyFromSecret "words two")))
      (by decide) rfl (by decide) rfl (by decide) rfl).1 rfl rfl).1,
   ((init_derivation_deterministic_and_injective (fun _ => true) cfgEx
      "same words" "words one" "words two" (PrivKey.mk "a") (PrivKey.mk "b")
      (PrivKey.mk "c") (PrivKey.mk "d") fsEmpty fsEmpty
      (InitOutput.mk (nodeKeyID (GenPrivKeyFromSecret "words one"))
        (PrivKey.pub (GenPrivKeyFromSecret "words one")))
      (InitOutput.mk (nodeKeyID (GenPrivKeyFromSecret "words two"))
        (PrivKey.pub (GenPrivKeyFromSecret "words two")))
      (by decide) rfl (by decide) rfl (by decide) rfl).2 (by decide) rfl rfl).1⟩

/-- C3: ExportGenesisFileWithTime fails with emptyChainID when the chain
id is empty; with invalidValidatorPower when a supplied validator has
non-positive voting power; with duplicateValidator when two validators
share a public key; and when the supplied timestamp is the zero value, the
written document carries a non-zero timestamp equal to the current time,
no earlier than the time the call started. -/
theorem exportGenesisFileWithTime_validation_and_timestamp
    (now tStart : Nat) (fs : FS) (genFile chainID : String)
    (vs : List GenesisValidator) (appState : List Nat) (genTime : Nat) :
    (chainID = "" →
      (ExportGenesisFileWithTime now fs genFile chainID vs appState genTime).1
        = some Err.emptyChainID)
    ∧ (chainID ≠ "" → (∃ v, v ∈ vs ∧ v.power ≤ 0) →
      (ExportGenesisFileWithTime now fs genFile chainID vs appState genTime).1
        = some Err.invalidValidatorPower)
    ∧ (chainID ≠ "" → (∀ v, v ∈ vs → 0 < v.power) →
       hasDuplicatePubKey vs = true →
      (ExportGenesisFileWithTime now fs genFile chainID vs appState genTime).1
        = some Err.duplicateValidator)
    ∧ (chainID ≠ "" → (∀ v, v ∈ vs → 0 < v.power) →
       hasDuplicatePubKey vs = false → genTime = 0 → 0 < now → tStart ≤ now →
      ∃ g : GenesisDoc,
        (ExportGenesisFileWithTime now fs genFile chainID vs appState
            genTime).2.read genFile = some (FileContent.genesis g)
        ∧ g.genesisTime = now ∧ g.genesisTime ≠ 0 ∧ tStart ≤ g.genesisTime) := by
  refine ⟨?_, ?_, ?_, ?_⟩
  · intro h
    simp [ExportGenesisFileWithTime, validateAndComplete, h]
  · intro h hex
    rcases hex with ⟨v, hv, hle⟩
    have hany : vs.any (fun v => decide (v.power ≤ 0)) = true :=
      List.any_eq_true.mpr ⟨v, hv, by simpa using hle⟩
    simp [ExportGenesisFileWithTime, validateAndComplete, h, hany]
  · intro h hpos hdup
    have hany : vs.any (fun v => decide (v.power ≤ 0)) = false := by
      refine Bool.eq_false_iff.mpr ?_
      intro hc
      rw [List.any_eq_true] at hc
      rcases hc with ⟨v, hv, hp⟩
      have := hpos v hv
      simp only [decide_eq_true_eq] at hp
      omega
    simp [ExportGenesisFileWithTime, validateAndComplete, h, hany, hdup]
  · intro h hpos hdup hgt hnow hts
    have hany : vs.any (fun v => decide (v.power ≤ 0)) = false := by
      refine Bool.eq_false_iff.mpr ?_
      intro hc
      rw [List.any_eq_true] at hc
      rcases hc with ⟨v, hv, hp⟩
      have := hpos v hv
      simp only [decide_eq_true_eq] at hp
      omega
    refine ⟨GenesisDoc.mk now chainID vs appState, ?_, rfl, ?_, hts⟩
    · simp [ExportGenesisFileWithTime, validateAndComplete, GenesisDoc.saveAs,
        h, hany, hdup, hgt, FS.read_write]
    · show now ≠ 0
      omega

theorem exportGenesisFileWithTime_validation_and_timestamp_witness :
    (ExportGenesisFileWithTime 100 fsEmpty "genesis.json" ""
        [GenesisValidator.mk (PubKey.mk "A") 10 "v1"] [1] 0).1
      = some Err.emptyChainID
    ∧ (ExportGenesisFileWithTime 100 fsEmpty "genesis.json" "testnet-1"
        [GenesisValidator.mk (PubKey.mk "A") 0 "v1"] [1] 0).1
      = some Err.invalidValidatorPower
    ∧ (ExportGenesisFileWithTime 100 fsEmpty "genesis.json" "testnet-1"
        [GenesisValidator.mk (PubKey.mk "A") 1 "a",
         GenesisValidator.mk (PubKey.mk "A") 2 "b"] [1] 0).1
      = some Err.duplicateValidator
    ∧ ∃ g : GenesisDoc,
        (ExportGenesisFileWithTime 100 fsEmpty "genesis.json" "testnet-1"
          [GenesisValidator.mk (PubKey.mk "A") 10 "v1"] [1] 0).2.read
            "genesis.json" = some (FileContent.genesis g)
        ∧ g.genesisTime = 100 ∧ g.genesisTime ≠ 0 ∧ 99 ≤ g.genesisTime :=
  ⟨(exportGenesisFileWithTime_validation_and_timestamp 100 99 fsEmpty
      "genesis.json" "" [GenesisValidator.mk (PubKey.mk "A") 10 "v1"] [1]
      0).1 rfl,
   (exportGenesisFileWithTime_validation_and_timestamp 100 99 fsEmpty
      "genesis.json" "testnet-1" [GenesisValidator.mk (PubKey.mk "A") 0 "v1"]
      [1] 0).2.1 (by decide) (by decide),
   (exportGenesisFileWithTime_validation_and_timestamp 100 99 fsEmpty
      "genesis.json" "testnet-1"
      [GenesisValidator.mk (PubKey.mk "A") 1 "a",
       GenesisValidator.mk (PubKey.mk "A") 2 "b"] [1] 0).2.2.1 (by decide)
      (by decide) (by decide),
   (exportGenesisFileWithTime_validation_and_timestamp 100 99 fsEmpty
      "genesis.json" "testnet-1" [GenesisValidator.mk (PubKey.mk "A") 10 "v1"]
      [1] 0).2.2.2 (by decide) (by decide) (by decide) rfl (by decide)
      (by decide)⟩

/-- C4: whenever genesis validation fails, ExportGenesisFile and
ExportGenesisFileWithTime return the validation error with the filesystem
exactly as it was before the call — pre-existing files untouched and no
partially written genesis file. -/
theorem exportGenesis_validation_failure_writes_nothing (now : Nat)
    (fs : FS) (genDoc : GenesisDoc) (genFile genFile2 chainID : String)
    (vs : List GenesisValidator) (appState : List Nat) (genTime : Nat)
    (e e2 : Err) :
    (validateAndComplete now genDoc = Except.error e →
      ExportGenesisFile now fs genDoc genFile = (some e, fs))
    ∧ (validateAndComplete now (GenesisDoc.mk genTime chainID vs appState)
        = Except.error e2 →
      ExportGenesisFileWithTime now fs genFile2 chainID vs appState genTime
        = (some e2, fs)) := by
  constructor
  · intro h
    simp [ExportGenesisFile, h]
  · intro h
    simp [ExportGenesisFileWithTime, h]

theorem exportGenesis_validation_failure_writes_nothing_witness :
    validateAndComplete 100 (GenesisDoc.mk 0 "" [] []) =
        Except.error Err.emptyChainID
    ∧ ExportGenesisFile 100 fsEx (GenesisDoc.mk 0 "" [] []) "genesis.json"
        = (some Err.emptyChainID, fsEx)
    ∧ ExportGenesisFileWithTime 100 fsEx "genesis.json" "" [] [] 0
        = (some Err.emptyChainID, fsEx) :=
  ⟨rfl,
   (exportGenesis_validation_failure_writes_nothing 100 fsEx
      (GenesisDoc.mk 0 "" [] []) "genesis.json" "genesis.json" "" [] [] 0
      Err.emptyChainID Err.emptyChainID).1 rfl,
   (exportGenesis_validation_failure_writes_nothing 100 fsEx
      (GenesisDoc.mk 0 "" [] []) "genesis.json" "genesis.json" "" [] [] 0
      Err.emptyChainID Err.emptyChainID).2 rfl⟩

end CosmosGenutil

namespace CosmosAuthParams

/-- C8: Params.Validate returns nil exactly when all six parameters
(MaxMemoCharacters, TxSigLimit, TxSizeCostPerByte, SigVerifyCostED25519,
SigVerifyCostSecp256k1, SigVerifyCostSm2) are non-zero, each per-field
validator rejects exactly the zero value, and DefaultParams passes
Validate. -/
theorem params_validate_iff_all_nonzero :
    (∀ v, validateMaxMemoCharacters v = none ↔ v ≠ 0)
    ∧ (∀ v, validateTxSigLimit v = none ↔ v ≠ 0)
    ∧ (∀ v, validateTxSizeCostPerByte v = none ↔ v ≠ 0)
    ∧ (∀ v, validateSigVerifyCostED25519 v = none ↔ v ≠ 0)
    ∧ (∀ v, validateSigVerifyCostSecp256k1 v = none ↔ v ≠ 0)
    ∧ (∀ v, validateSigVerifyCostSm2 v = none ↔ v ≠ 0)
    ∧ (∀ p : Params, p.Validate = none ↔
        (p.MaxMemoCharacters ≠ 0 ∧ p.TxSigLimit ≠ 0 ∧ p.TxSizeCostPerByte ≠ 0
          ∧ p.SigVerifyCostED25519 ≠ 0 ∧ p.SigVerifyCostSecp256k1 ≠ 0
          ∧ p.SigVerifyCostSm2 ≠ 0))
    ∧ DefaultParams.Validate = none := by
  refine ⟨?_, ?_, ?_, ?_, ?_, ?_, ?_, rfl⟩
  · intro v
    by_cases h : v = 0 <;> simp [validateMaxMemoCharacters, h]
  · intro v
    by_cases h : v = 0 <;> simp [validateTxSigLimit, h]
  · intro v
    by_cases h : v = 0 <;> simp [validateTxSizeCostPerByte, h]
  · intro v
    by_cases h : v = 0 <;> simp [validateSigVerifyCostED25519, h]
  · intro v
    by_cases h : v = 0 <;> simp [validateSigVerifyCostSecp256k1, h]
  · intro v
    by_cases h : v = 0 <;> simp [validateSigVerifyCostSm2, h]
  · intro p
    by_cases h1 : p.TxSigLimit = 0 <;>
    by_cases h2 : p.SigVerifyCostED25519 = 0 <;>
    by_cases h3 : p.SigVerifyCostSecp256k1 = 0 <;>
    by_cases h4 : p.SigVerifyCostSm2 = 0 <;>
    by_cases h5 : p.MaxMemoCharacters = 0 <;>
    by_cases h6 : p.TxSizeCostPerByte = 0 <;>
    simp [Params.Validate, validateTxSigLimit, validateSigVerifyCostED25519,
      validateSigVerifyCostSecp256k1, validateSigVerifyCostSm2,
      validateMaxMemoCharacters, validateTxSizeCostPerByte,
      h1, h2, h3, h4, h5, h6]

end CosmosAuthParams
